import Mathlib

/-!
# Verification of the DXF analyzer (`src/dxf_analyzer.py`)

A shallow embedding of the analysis engine of `dxf_analyzer.py`.

Conventions of the embedding:
* Python floats are idealised as rationals (`ℚ`).  The floating-point math
  routines used by the analyzer (`math.sqrt`, `np.cos`, `np.sin`, `np.pi`)
  are passed in as an explicit `FloatOracle` of rational-valued functions;
  theorems that depend on the meaning of `sqrt` take hypotheses relating the
  oracle to `Real.sqrt`.
* `hasattr`-probed attributes of the ezdxf document model (`dxf.layer`,
  `dxf.lineweight`, `bounding_box`, `dxf.start`/`dxf.end`) are `Option`
  fields; reading a missing attribute without a `hasattr` guard is an
  `AttributeError`, modelled in the `Except String` monad.
* The free-text fields of `ErrorReport` built by f-string formatting
  (`description`, `cause`, `suggestion`) and the environment-dependent
  fields of `AnalysisResult` (`file_name`, `analysis_date`) are omitted:
  no claim depends on them.
* `hashlib.md5` applied to the `str()` of the representation dictionary is
  modelled as the identity on the canonical representation (`HashData`):
  distinct dictionaries have distinct strings and md5 is treated as
  collision-free.
-/

/-- A 3-D point (`ezdxf` vector / coordinate triple), floats as `ℚ`. -/
structure Point where
  x : ℚ
  y : ℚ
  z : ℚ
deriving DecidableEq

/-- Per-variant geometry of an entity, following the document model:
`LINE` carries start/end, the two polyline variants carry a closed flag and
a vertex sequence (`vertex.dxf.location`), `ARC` carries
center/radius/start-angle/end-angle, `CIRCLE` center/radius. -/
inductive Geom where
  | line (s e : Point)
  | lwpolyline (closed : Bool) (verts : List Point)
  | polyline (closed : Bool) (verts : List Point)
  | arc (center : Point) (radius start_angle end_angle : ℚ)
  | circle (center : Point) (radius : ℚ)
  | text
  | mtext
  | other (tag : String)
deriving DecidableEq

/-- An ezdxf entity as read by the analyzer.  `layer`, `lineweight` and
`bounding_box` are `hasattr`-probed in the source and hence `Option`;
`handle` is always present. -/
structure Entity where
  handle : String
  layer : Option String
  lineweight : Option Int
  bounding_box : Option (Point × Point)
  geom : Geom
deriving DecidableEq

/-- `entity.dxftype()`. -/
def Entity.dxftype (e : Entity) : String :=
  match e.geom with
  | .line _ _ => "LINE"
  | .lwpolyline _ _ => "LWPOLYLINE"
  | .polyline _ _ => "POLYLINE"
  | .arc _ _ _ _ => "ARC"
  | .circle _ _ => "CIRCLE"
  | .text => "TEXT"
  | .mtext => "MTEXT"
  | .other tag => tag

/-- `entity.is_closed` (only read for the polyline variants). -/
def Entity.is_closed (e : Entity) : Bool :=
  match e.geom with
  | .lwpolyline c _ => c
  | .polyline c _ => c
  | _ => false

/-- `entity.vertices` (only read for the polyline variants). -/
def Entity.vertices (e : Entity) : List Point :=
  match e.geom with
  | .lwpolyline _ vs => vs
  | .polyline _ vs => vs
  | _ => []

/-- `hasattr(entity.dxf, 'start')`: only `LINE` carries a `start` attribute
among the modelled variants. -/
def Entity.start? (e : Entity) : Option Point :=
  match e.geom with
  | .line s _ => some s
  | _ => none

/-- `hasattr(entity.dxf, 'end')`. -/
def Entity.end? (e : Entity) : Option Point :=
  match e.geom with
  | .line _ en => some en
  | _ => none

/-- The message of the `AttributeError` raised by reading `entity.dxf.layer`
when the attribute is missing. -/
def layer_fault_msg : String := "AttributeError: layer"

/-- Unguarded `entity.dxf.layer`: raises when the attribute is missing. -/
def Entity.getLayer (e : Entity) : Except String String :=
  match e.layer with
  | some l => .ok l
  | none => .error layer_fault_msg

/-- A layer registry record (`layer.is_off`, `layer.is_frozen`). -/
structure Layer where
  is_off : Bool
  is_frozen : Bool
deriving DecidableEq

/-- The loaded ezdxf document: the modelspace, the remaining (paper-space)
layouts, the layer table (`doc.layers.items()`), the format version tag and
the on-disk file size (`os.path.getsize`, `none` when it cannot be read). -/
structure Document where
  msp : List Entity
  paper : List (List Entity)
  layers : List (String × Layer)
  dxfversion : Option String
  file_size_bytes : Option ℚ

/-- `self.doc.layouts`: the modelspace followed by the other layouts. -/
def Document.layoutsAll (doc : Document) : List (List Entity) :=
  doc.msp :: doc.paper

/-- The rational-valued float math routines the analyzer calls
(`math.sqrt`, `np.cos`, `np.sin` on radians, `np.pi`).  IEEE doubles are
rationals, so the routines are modelled as arbitrary `ℚ → ℚ` functions. -/
structure FloatOracle where
  sqrt : ℚ → ℚ
  cos : ℚ → ℚ
  sin : ℚ → ℚ
  pi : ℚ

/-- A diagnostic record (`ErrorReport`); the formatted free-text fields are
omitted (see the file header). -/
structure ErrorReport where
  error_id : ℤ
  error_type : String
  title : String
  affected_entities : List String
  severity_score : ℤ
deriving DecidableEq

/-- The mutable analyzer state after the validators have run:
`self.errors`, `self.warnings`, `self.export_errors`. -/
structure AState where
  errors : List ErrorReport
  warnings : List ErrorReport
  export_errors : List ErrorReport
deriving DecidableEq

/-- `VALID_LAYERS` (a Python set; only membership is used). -/
def VALID_LAYERS : List String := ["CUT", "ENGRAVE", "MARK", "ETCH", "SCORE", "REFERENCE"]

def MIN_SIZE_MM : ℚ := 5
def MAX_SIZE_MM : ℚ := 3000
def MAX_FILE_SIZE_MB : ℚ := 50

/-- `round(x, 2)` of Python, idealised: `round` is round-half-up here while
Python rounds ties to even; no claim exercises a tie. -/
def pyRound2 (q : ℚ) : ℚ := (round (q * 100) : ℤ) / 100

/-- `round(x, 3)` of Python, same idealisation. -/
def pyRound3 (q : ℚ) : ℚ := (round (q * 1000) : ℤ) / 1000

/-- Python's `str.upper()` on ASCII layer names (written over the
character list so that it evaluates by kernel reduction). -/
def pyUpper (s : String) : String := ⟨s.data.map Char.toUpper⟩

/-- Substring test on character lists (Python's `needle in hay`). -/
def containsSub (needle : List Char) : List Char → Bool
  | [] => needle.isEmpty
  | c :: rest => needle.isPrefixOf (c :: rest) || containsSub needle rest

/-- `Except.isOk` specialised to our error monad. -/
def exceptOk {α : Type} (x : Except String α) : Bool :=
  match x with
  | .ok _ => true
  | .error _ => false

/-! ## Diagnostic record constructors (one per append site of the source) -/

/-- Error 1 (`Vectores abiertos`). -/
def open_vector_report (h : String) : ErrorReport :=
  ⟨1, "CRITICAL", "Vectores abiertos", [h], 10⟩

/-- Error 2 (`Vectores sin capa asignada`). -/
def no_layer_report (h : String) : ErrorReport :=
  ⟨2, "CRITICAL", "Vectores sin capa asignada", [h], 9⟩

/-- Error 3 (`Texto editable`). -/
def text_report (h : String) : ErrorReport :=
  ⟨3, "CRITICAL", "Texto editable", [h], 8⟩

/-- Error 4 (`Capas incorrectas`). -/
def bad_layer_report (h : String) : ErrorReport :=
  ⟨4, "CRITICAL", "Capas incorrectas", [h], 7⟩

/-- Error 5 (`Objetos fuera de área`). -/
def out_of_area_report (h : String) : ErrorReport :=
  ⟨5, "CRITICAL", "Objetos fuera de área", [h], 8⟩

/-- Error 6 (`Objetos en capas invisibles`); the affected entity is the
layer name. -/
def invisible_layer_report (layerName : String) : ErrorReport :=
  ⟨6, "CRITICAL", "Objetos en capas invisibles", [layerName], 8⟩

/-- Error 7 (`Duplicación de vectores`); carries every handle of the
fingerprint group. -/
def duplicate_report (handles : List String) : ErrorReport :=
  ⟨7, "CRITICAL", "Duplicación de vectores", handles, 7⟩

/-- Error 9 (`Vectores con grosor de línea`). -/
def lineweight_report (h : String) : ErrorReport :=
  ⟨9, "CRITICAL", "Vectores con grosor de línea", [h], 6⟩

/-- Warning 11, small variant (`Escala demasiado pequeña`). -/
def too_small_report (h : String) : ErrorReport :=
  ⟨11, "WARNING", "Escala demasiado pequeña", [h], 4⟩

/-- Warning 11, large variant (`Escala demasiado grande`). -/
def too_large_report (h : String) : ErrorReport :=
  ⟨11, "WARNING", "Escala demasiado grande", [h], 5⟩

/-- Warning 15 (`Vectores en capas de referencia`). -/
def reference_layer_report (h : String) : ErrorReport :=
  ⟨15, "WARNING", "Vectores en capas de referencia", [h], 3⟩

/-- Warning 18 (`Polilíneas con puntos redundantes`). -/
def excessive_points_report (h : String) : ErrorReport :=
  ⟨18, "WARNING", "Polilíneas con puntos redundantes", [h], 4⟩

/-- Export error 20 (`Versión de DXF no compatible`). -/
def version_report : ErrorReport :=
  ⟨20, "EXPORT_ERROR", "Versión de DXF no compatible", ["FILE"], 6⟩

/-- Export error 23 (`Z-coordinates no planas`). -/
def z_coordinate_report (h : String) : ErrorReport :=
  ⟨23, "EXPORT_ERROR", "Z-coordinates no planas", [h], 5⟩

/-- Export error 24 (`Archivo demasiado pesado`). -/
def file_size_report : ErrorReport :=
  ⟨24, "EXPORT_ERROR", "Archivo demasiado pesado", ["FILE"], 6⟩

/-- Error 25 (`Vectores demasiado cercanos`); one record per offending
pair of sampled points, listing the two entity handles in encounter
order (`entity1.handle`, `entity2.handle`). -/
def distance_report (e1 e2 : Entity) : ErrorReport :=
  ⟨25, "CRITICAL", "Vectores demasiado cercanos", [e1.handle, e2.handle], 10⟩

/-- Error 26 (`No se encontraron capas en uso en el archivo`); the source
sets `affected_entities = list(used_layers)`, and the record is only built
when that set is empty, hence the empty list here. -/
def no_layers_report : ErrorReport :=
  ⟨26, "CRITICAL", "No se encontraron capas en uso en el archivo", [], 10⟩

/-- Error 27 (`Entidad sin capa asignada`). -/
def entity_no_layer_report (h : String) : ErrorReport :=
  ⟨27, "CRITICAL", "Entidad sin capa asignada", [h], 10⟩

/-- Warning 28 (`Entidad muy pequeña`). -/
def tiny_entity_report (h : String) : ErrorReport :=
  ⟨28, "WARNING", "Entidad muy pequeña", [h], 5⟩

/-- Warning 29 (`Dimensiones muy grandes`). -/
def dimensions_large_report : ErrorReport :=
  ⟨29, "WARNING", "Dimensiones muy grandes", ["FILE"], 5⟩

/-- Warning 30 (`Dimensiones muy pequeñas`). -/
def dimensions_small_report : ErrorReport :=
  ⟨30, "WARNING", "Dimensiones muy pequeñas", ["FILE"], 5⟩

/-- Error 0, the synthetic record built by the `except` handler of
`analyze_dxf_file`. -/
def load_failure_report : ErrorReport :=
  ⟨0, "CRITICAL", "Error al cargar archivo", ["FILE"], 10⟩

/-! ## Geometry analyzer -/

/-- `_get_entity_bounds`: the native bounding box if present, else derived
from `dxf.start`/`dxf.end`, else undetermined.  The `try`/`except` of the
source has nothing to catch in the model. -/
def get_entity_bounds (e : Entity) : Option (ℚ × ℚ × ℚ × ℚ) :=
  match e.bounding_box with
  | some (p0, p1) => some (p0.x, p0.y, p1.x, p1.y)
  | none =>
    match e.start?, e.end? with
    | some s, some en =>
      some (min s.x en.x, min s.y en.y, max s.x en.x, max s.y en.y)
    | _, _ => none

/-- `_is_vector_entity`. -/
def is_vector_entity (e : Entity) : Bool :=
  e.dxftype == "LINE" || e.dxftype == "LWPOLYLINE" || e.dxftype == "POLYLINE" ||
  e.dxftype == "ARC" || e.dxftype == "CIRCLE"

/-- `np.linspace(a, b, 72)`: 72 points from `a` to `b`, both inclusive. -/
def linspace72 (a b : ℚ) : List ℚ :=
  (List.range 72).map (fun k => a + (b - a) * k / 71)

/-- `_get_entity_points`: defining points for straight entities, 72 angular
samples for arcs and circles (`np.radians(angle) = angle·π/180`). -/
def get_entity_points (M : FloatOracle) (e : Entity) : List Point :=
  match e.geom with
  | .line s en => [s, en]
  | .lwpolyline _ vs => vs
  | .polyline _ vs => vs
  | .arc c r sa ea =>
    (linspace72 sa ea).map fun a =>
      ⟨c.x + r * M.cos (a * M.pi / 180), c.y + r * M.sin (a * M.pi / 180), c.z⟩
  | .circle c r =>
    (linspace72 0 360).map fun a =>
      ⟨c.x + r * M.cos (a * M.pi / 180), c.y + r * M.sin (a * M.pi / 180), c.z⟩
  | _ => []

/-- The radicand of `_calculate_distance`:
`(p2[0]-p1[0])² + (p2[1]-p1[1])² + (p2[2]-p1[2])²`. -/
def sq_dist (p1 p2 : Point) : ℚ :=
  (p2.x - p1.x) ^ 2 + (p2.y - p1.y) ^ 2 + (p2.z - p1.z) ^ 2

/-- `_calculate_distance`, via the float `sqrt` routine of the oracle. -/
def calculate_distance (M : FloatOracle) (p1 p2 : Point) : ℚ :=
  M.sqrt (sq_dist p1 p2)

/-- The idealised distance: the real Euclidean distance between the two
sampled points. -/
noncomputable def distance_spec (p1 p2 : Point) : ℝ :=
  Real.sqrt ((sq_dist p1 p2 : ℚ) : ℝ)

/-- `_calculate_entity_size`. -/
def calculate_entity_size (M : FloatOracle) (e : Entity) : ℚ :=
  match e.geom with
  | .line s en => calculate_distance M s en
  | .lwpolyline _ vs =>
    if vs.length < 2 then 0
    else ((vs.zip vs.tail).map fun p => calculate_distance M p.1 p.2).sum
  | .polyline _ vs =>
    if vs.length < 2 then 0
    else ((vs.zip vs.tail).map fun p => calculate_distance M p.1 p.2).sum
  | .arc _ r sa ea => 2 * M.pi * r * (ea - sa) / 360
  | .circle _ r => 2 * M.pi * r
  | _ => 0

/-! ## Duplicate detector -/

/-- The canonical content of the fingerprint dictionary `repr_data` of
`_get_entity_hash` (md5 of its string form is modelled as the identity). -/
structure HashData where
  type : String
  layer : Option String
  start_end : Option ((ℚ × ℚ) × (ℚ × ℚ))
deriving DecidableEq

/-- The start/end component of the fingerprint: coordinates rounded to 3
decimal places, present only when both `dxf.start` and `dxf.end` resolve. -/
def entity_hash_coords (e : Entity) : Option ((ℚ × ℚ) × (ℚ × ℚ)) :=
  match e.start?, e.end? with
  | some s, some en => some ((pyRound3 s.x, pyRound3 s.y), (pyRound3 en.x, pyRound3 en.y))
  | _, _ => none

/-- `_get_entity_hash`: the `try`/`except` has nothing to catch in the
model, so the result is always `some`. -/
def get_entity_hash (e : Entity) : Option HashData :=
  some ⟨e.dxftype, e.layer, entity_hash_coords e⟩

/-- Appending a handle to the fingerprint group of `h` in an
insertion-ordered association list (the behaviour of
`defaultdict(list)[hash].append(handle)`). -/
def insert_hash (h : HashData) (handle : String) :
    List (HashData × List String) → List (HashData × List String)
  | [] => [(h, [handle])]
  | (k, hs) :: rest =>
    if k = h then (k, hs ++ [handle]) :: rest
    else (k, hs) :: insert_hash h handle rest

/-- The grouping loop of `_check_duplicate_vectors` over a list of
entities, accumulating `entity_hashes`. -/
def collect_hashes : List Entity → List (HashData × List String) →
    List (HashData × List String)
  | [], acc => acc
  | e :: rest, acc =>
    collect_hashes rest
      (match get_entity_hash e with
       | some h => insert_hash h e.handle acc
       | none => acc)

/-- `_check_duplicate_vectors`: iterates `self.doc.layouts` (every layout,
not only the modelspace) and reports one id-7 record per fingerprint group
of two or more handles. -/
def check_duplicate_vectors (doc : Document) : List ErrorReport :=
  (collect_hashes doc.layoutsAll.flatten []).filterMap fun g =>
    if g.2.length > 1 then some (duplicate_report g.2) else none

/-! ## Distance check (`_check_vector_distances`) -/

/-- The firing condition of the id-25 check for one pair of sampled
points: `0 < distance < self.min_distance_mm` with the computed
distance. -/
def distance_condition (M : FloatOracle) (m : ℚ) (p1 p2 : Point) : Prop :=
  0 < calculate_distance M p1 p2 ∧ calculate_distance M p1 p2 < m

instance (M : FloatOracle) (m : ℚ) (p1 p2 : Point) :
    Decidable (distance_condition M m p1 p2) := by
  unfold distance_condition; infer_instance

/-- The two innermost loops of `_check_vector_distances`: one id-25 record
per offending pair `(p1, p2)`, `p1` from `entity1`, `p2` from `entity2`. -/
def distance_pair_records (M : FloatOracle) (m : ℚ) (e1 e2 : Entity) :
    List ErrorReport :=
  (get_entity_points M e1).flatMap fun p1 =>
    (get_entity_points M e2).filterMap fun p2 =>
      if distance_condition M m p1 p2 then some (distance_report e1 e2) else none

/-- `_check_vector_distances` over the modelspace entity list: for each
`entity1` at position `i`, each later `entity2`, skipping non-vector
entities on either side. -/
def check_vector_distances (M : FloatOracle) (m : ℚ) :
    List Entity → List ErrorReport
  | [] => []
  | e1 :: rest =>
    (if is_vector_entity e1 then
      rest.flatMap fun e2 =>
        if is_vector_entity e2 then distance_pair_records M m e1 e2 else []
     else []) ++ check_vector_distances M m rest

/-- The distance check as §4.2/§4.1 of the design describe it: the same
pair iteration, firing exactly when the real Euclidean distance of the two
sampled points is strictly between `0` and the configured minimum. -/
noncomputable def distance_pair_records_spec (m : ℚ) (e1 e2 : Entity)
    (M : FloatOracle) : List ErrorReport :=
  (get_entity_points M e1).flatMap fun p1 =>
    (get_entity_points M e2).filterMap fun p2 =>
      if 0 < distance_spec p1 p2 ∧ distance_spec p1 p2 < (m : ℝ) then
        some (distance_report e1 e2)
      else none

/-- The spec-side distance validator (sampling as in the source, firing on
the real distance). -/
noncomputable def check_vector_distances_spec (M : FloatOracle) (m : ℚ) :
    List Entity → List ErrorReport
  | [] => []
  | e1 :: rest =>
    (if is_vector_entity e1 then
      rest.flatMap fun e2 =>
        if is_vector_entity e2 then distance_pair_records_spec m e1 e2 M else []
     else []) ++ check_vector_distances_spec M m rest

/-- The number of offending sampled-point pairs of two entities. -/
def offending_point_pairs (M : FloatOracle) (m : ℚ) (e1 e2 : Entity) : ℕ :=
  ((get_entity_points M e1).flatMap fun p1 =>
    (get_entity_points M e2).filter fun p2 =>
      decide (distance_condition M m p1 p2)).length

/-! ## Layer usage, per-entity validation, dimensions -/

/-- The loop of `_check_layer_usage` building `used_layers`: an unguarded
`entity.dxf.layer` read per modelspace entity (only emptiness of the
resulting set is consumed, so the set is kept as a list). -/
def used_layers_loop : List Entity → Except String (List String)
  | [] => .ok []
  | e :: rest =>
    match e.layer with
    | none => .error layer_fault_msg
    | some l =>
      match used_layers_loop rest with
      | .error msg => .error msg
      | .ok ls => .ok (l :: ls)

/-- `_check_layer_usage`: id 26 when no layer is used by any modelspace
entity; `affected_entities` is `list(used_layers)`, empty in that case. -/
def check_layer_usage (msp : List Entity) : Except String (List ErrorReport) :=
  match used_layers_loop msp with
  | .error msg => .error msg
  | .ok used => .ok (if used.isEmpty then [no_layers_report] else [])

/-- The body of `_validate_entities` for one entity: id 27 when the layer
attribute does not resolve (`hasattr(entity, 'dxf')` always holds in the
model), id 28 when a vector entity's computed size is below 1 mm.  Returns
(critical records, warning records). -/
def validate_entity (M : FloatOracle) (e : Entity) :
    List ErrorReport × List ErrorReport :=
  ((if e.layer.isNone then [entity_no_layer_report e.handle] else []),
   (if is_vector_entity e then
      if calculate_entity_size M e < 1 then [tiny_entity_report e.handle] else []
    else []))

/-- `_validate_entities` over the modelspace. -/
def validate_entities (M : FloatOracle) (msp : List Entity) :
    List ErrorReport × List ErrorReport :=
  ((msp.flatMap fun e => (validate_entity M e).1),
   (msp.flatMap fun e => (validate_entity M e).2))

/-- `_check_dimensions`: overall extent of the sampled points of the
modelspace's vector entities; the `float('inf')` seeds mean the checks run
exactly when at least one point was collected. -/
def check_dimensions (M : FloatOracle) (msp : List Entity) : List ErrorReport :=
  match (msp.filter is_vector_entity).flatMap (get_entity_points M) with
  | [] => []
  | p :: ps =>
    let min_x := ps.foldl (fun a q => min a q.x) p.x
    let min_y := ps.foldl (fun a q => min a q.y) p.y
    let max_x := ps.foldl (fun a q => max a q.x) p.x
    let max_y := ps.foldl (fun a q => max a q.y) p.y
    let width := max_x - min_x
    let height := max_y - min_y
    (if width > 3000 ∨ height > 3000 then [dimensions_large_report] else []) ++
    (if width < 5 ∨ height < 5 then [dimensions_small_report] else [])

/-! ## Critical-error validator (`_validate_critical_errors`) -/

/-- Check 1 of `_validate_critical_errors`: the id-1 records for one
entity.  This arm reads `entity.dxf.layer` without a `hasattr` guard, so
an open polyline without a layer attribute raises. -/
def check_open_vectors (e : Entity) : Except String (List ErrorReport) :=
  if (e.dxftype == "LWPOLYLINE" || e.dxftype == "POLYLINE") && !e.is_closed then
    match e.layer with
    | none => Except.error layer_fault_msg
    | some layer =>
      .ok (if pyUpper layer == "CUT" || pyUpper layer == "ENGRAVE" then
            [open_vector_report e.handle] else [])
  else .ok []

/-- The per-entity body of the main loop of `_validate_critical_errors`:
checks 1, 2, 3, 4, 5, 9 append to `self.errors` and check 23 to
`self.export_errors`, in source order. -/
def crit_entity (e : Entity) : Except String (List ErrorReport × List ErrorReport) :=
  match check_open_vectors e with
  | .error msg => .error msg
  | .ok errs1 =>
    let errs2 := if e.layer.isNone || e.layer == some "0" then
      [no_layer_report e.handle] else []
    let errs3 := if e.dxftype == "TEXT" || e.dxftype == "MTEXT" then
      [text_report e.handle] else []
    let errs4 := match e.layer with
      | some l =>
        if !(VALID_LAYERS.contains (pyUpper l)) && pyUpper l != "0" then
          [bad_layer_report e.handle] else []
      | none => []
    let errs5 := match get_entity_bounds e with
      | some (x_min, y_min, x_max, y_max) =>
        if |x_min| > 2000 ∨ |y_min| > 2000 ∨ |x_max| > 2000 ∨ |y_max| > 2000 then
          [out_of_area_report e.handle] else []
      | none => []
    let errs9 := match e.lineweight with
      | some w => if w > 0 then [lineweight_report e.handle] else []
      | none => []
    let exps23 := match e.start? with
      | some p => if |p.z| > 1 / 1000 then [z_coordinate_report e.handle] else []
      | none => []
    .ok (errs1 ++ errs2 ++ errs3 ++ errs4 ++ errs5 ++ errs9, exps23)

/-- The entity loop of `_validate_critical_errors` over all layouts. -/
def validate_critical_loop : List Entity →
    Except String (List ErrorReport × List ErrorReport)
  | [] => .ok ([], [])
  | e :: rest =>
    match crit_entity e with
    | .error msg => .error msg
    | .ok (a, b) =>
      match validate_critical_loop rest with
      | .error msg => .error msg
      | .ok (as_, bs) => .ok (a ++ as_, b ++ bs)

/-- `_check_invisible_layers`: id 6 per hidden/frozen layer that has at
least one entity (in any layout). -/
def check_invisible_layers (doc : Document) : List ErrorReport :=
  doc.layers.filterMap fun nl =>
    if nl.2.is_off || nl.2.is_frozen then
      if 0 < (doc.layoutsAll.flatten.filter fun e => e.layer == some nl.1).length
      then some (invisible_layer_report nl.1) else none
    else none

/-- `_validate_critical_errors`: the entity loop, then the duplicate check
(id 7), then the invisible-layer check (id 6). -/
def validate_critical_errors (doc : Document) :
    Except String (List ErrorReport × List ErrorReport) :=
  match validate_critical_loop doc.layoutsAll.flatten with
  | .error msg => .error msg
  | .ok (errs, exps) =>
    .ok (errs ++ check_duplicate_vectors doc ++ check_invisible_layers doc, exps)

/-! ## Warning validator, file structure, export errors -/

/-- The per-entity body of `_validate_warnings`: both variants of warning
11, the small one checked (and appended) first. -/
def warn_entity (e : Entity) : List ErrorReport :=
  match get_entity_bounds e with
  | some (x_min, y_min, x_max, y_max) =>
    let width := x_max - x_min
    let height := y_max - y_min
    (if width < MIN_SIZE_MM ∨ height < MIN_SIZE_MM then [too_small_report e.handle] else []) ++
    (if width > MAX_SIZE_MM ∨ height > MAX_SIZE_MM then [too_large_report e.handle] else [])
  | none => []

/-- `reference_layers` of `_check_reference_layers`. -/
def reference_layers : List String := ["LAYER 0", "SKETCH", "REFERENCE", "GUIDE", "DEFPOINTS"]

/-- `_check_reference_layers`: warning 15 when the upper-cased layer name
contains any reference substring. -/
def check_reference_layers (doc : Document) : List ErrorReport :=
  doc.layoutsAll.flatten.filterMap fun e =>
    match e.layer with
    | some l =>
      if reference_layers.any (fun ref => containsSub ref.toList (pyUpper l).toList)
      then some (reference_layer_report e.handle) else none
    | none => none

/-- `_check_excessive_points`: warning 18 for polylines with more than 100
vertices. -/
def check_excessive_points (doc : Document) : List ErrorReport :=
  doc.layoutsAll.flatten.filterMap fun e =>
    if (e.dxftype == "LWPOLYLINE" || e.dxftype == "POLYLINE") &&
        decide (e.vertices.length > 100)
    then some (excessive_points_report e.handle) else none

/-- `_validate_warnings`: the per-entity size warnings over all layouts,
then the reference-layer check, then the excessive-points check. -/
def validate_warnings (doc : Document) : List ErrorReport :=
  (doc.layoutsAll.flatten.flatMap fun e => warn_entity e) ++
  check_reference_layers doc ++ check_excessive_points doc

/-- `_validate_file_structure`: export error 20 for a format version tag
strictly above `'AC1027'` (Python string comparison, lexicographic on code
points, matching Lean's `String` order). -/
def validate_file_structure (doc : Document) : List ErrorReport :=
  match doc.dxfversion with
  | some version => if "AC1027" < version then [version_report] else []
  | none => []

/-- `_validate_export_errors`: export error 24 when the file size exceeds
50 MB; an unreadable size (`os.path.getsize` failing) is swallowed by the
`try`/`except`. -/
def validate_export_errors (doc : Document) : List ErrorReport :=
  match doc.file_size_bytes with
  | some sz => if sz / (1024 * 1024) > MAX_FILE_SIZE_MB then [file_size_report] else []
  | none => []

/-! ## Health scorer, summary, recommendations -/

/-- `critical_weight`, `warning_weight`, `export_weight`. -/
def critical_weight : ℤ := 10
def warning_weight : ℤ := 3
def export_weight : ℤ := 5

/-- `critical_points = sum(error.severity_score * critical_weight ...)`. -/
def critical_points (errs : List ErrorReport) : ℤ :=
  (errs.map fun r => r.severity_score * critical_weight).sum

/-- `warning_points`. -/
def warning_points (warns : List ErrorReport) : ℤ :=
  (warns.map fun r => r.severity_score * warning_weight).sum

/-- `export_points`. -/
def export_points (exps : List ErrorReport) : ℤ :=
  (exps.map fun r => r.severity_score * export_weight).sum

/-- `_calculate_health_percentage`, both degenerate branches included. -/
def calculate_health_percentage (total : ℕ) (st : AState) : ℚ :=
  if total = 0 then 0
  else
    let total_error_points : ℤ :=
      critical_points st.errors + warning_points st.warnings + export_points st.export_errors
    let max_possible_errors : ℚ := (total : ℚ) * 100
    if max_possible_errors = 0 then 100
    else pyRound2 (max 0 (100 - ((total_error_points : ℚ) / max_possible_errors * 100)))

/-- The summary map of `_generate_summary`, or the `{"status": "ERROR",
"message": ...}` map of the `except` handler. -/
inductive Summary where
  | ok (total_entities critical_errors_count warnings_count export_errors_count : ℕ)
      (layers_found : List String) (dxf_version : String) (status : String)
  | err (status : String) (message : String)
deriving DecidableEq

/-- The `"status"` entry of either summary shape. -/
def Summary.status : Summary → String
  | .ok _ _ _ _ _ _ s => s
  | .err s _ => s

/-- `_generate_summary`. -/
def generate_summary (doc : Document) (total : ℕ) (st : AState) : Summary :=
  .ok total st.errors.length st.warnings.length st.export_errors.length
    (doc.layers.map Prod.fst) (doc.dxfversion.getD "Unknown")
    (if st.errors.length = 0 then "READY"
     else if st.errors.length < 5 then "NEEDS_REVIEW" else "CRITICAL")

/-- `_generate_recommendations`. -/
def generate_recommendations (st : AState) : List String :=
  (if !st.errors.isEmpty then ["Corrija todos los errores críticos antes de proceder al corte"] else []) ++
  (if st.errors.any (fun r => r.error_id == 1) then ["Cerrar todas las polilíneas en capas de corte"] else []) ++
  (if st.errors.any (fun r => r.error_id == 3) then ["Convertir todos los textos a curvas/contornos"] else []) ++
  (if st.errors.any (fun r => r.error_id == 4) then ["Usar nombres de capas estándar: CUT, ENGRAVE, MARK"] else []) ++
  (if st.errors.any (fun r => r.error_id == 7) then ["Eliminar vectores duplicados"] else []) ++
  (if !st.warnings.isEmpty then ["Revisar las advertencias para optimizar el proceso"] else []) ++
  (if st.errors.isEmpty && st.warnings.isEmpty then ["Archivo listo para corte láser"] else [])

/-! ## Result assembly (`analyze_dxf_file`) -/

/-- `_count_total_entities`. -/
def count_total_entities (doc : Document) : ℕ :=
  (doc.layoutsAll.map List.length).sum

/-- The validator pipeline of `analyze_dxf_file`, in source order.  Only
`_validate_critical_errors` (check-1 arm) and `_check_layer_usage` can
raise; the remaining validators are total, so the pipeline is written as a
match cascade on the two fallible steps, executed in their source
positions. -/
def run_analysis (M : FloatOracle) (m : ℚ) (doc : Document) : Except String AState :=
  let exps20 := validate_file_structure doc
  match validate_critical_errors doc with
  | .error msg => .error msg
  | .ok (errsC, exps23) =>
    let warnsW := validate_warnings doc
    let exps24 := validate_export_errors doc
    let errs25 := check_vector_distances M m doc.msp
    match check_layer_usage doc.msp with
    | .error msg => .error msg
    | .ok errs26 =>
      let ve := validate_entities M doc.msp
      let warns2930 := check_dimensions M doc.msp
      .ok ⟨errsC ++ errs25 ++ errs26 ++ ve.1,
           warnsW ++ ve.2 ++ warns2930,
           exps20 ++ exps23 ++ exps24⟩

/-- The analysis result (`file_name` and `analysis_date` omitted, see the
file header). -/
structure AnalysisResult where
  total_entities : ℕ
  health_percentage : ℚ
  critical_errors : List ErrorReport
  warnings : List ErrorReport
  export_errors : List ErrorReport
  summary : Summary
  recommendations : List String
deriving DecidableEq

/-- The result built by the `except` handler of `analyze_dxf_file`: a
single synthetic id-0 critical record, zero entities, health 0.0, status
`"ERROR"`. -/
def load_failure_result (msg : String) : AnalysisResult :=
  { total_entities := 0
    health_percentage := 0
    critical_errors := [load_failure_report]
    warnings := []
    export_errors := []
    summary := .err "ERROR" msg
    recommendations := ["Verificar integridad del archivo DXF"] }

/-- `analyze_dxf_file`: the whole `try` block.  `loaded` is the outcome of
`ezdxf.readfile`; any exception of the loader or of a validator reaches
the same `except` handler. -/
def analyze_dxf_file (loaded : Except String Document) (M : FloatOracle)
    (m : ℚ) : AnalysisResult :=
  match loaded with
  | .error msg => load_failure_result msg
  | .ok doc =>
    match run_analysis M m doc with
    | .error msg => load_failure_result msg
    | .ok st =>
      let total := count_total_entities doc
      { total_entities := total
        health_percentage := calculate_health_percentage total st
        critical_errors := st.errors
        warnings := st.warnings
        export_errors := st.export_errors
        summary := generate_summary doc total st
        recommendations := generate_recommendations st }

/-! ## Concrete documents and oracles used as witnesses -/

/-- A float oracle whose `sqrt` is the identity: it satisfies the
comparison assumptions used by the distance theorems for a minimum
distance of 1. -/
def idOracle : FloatOracle := ⟨fun q => q, fun _ => 1, fun _ => 0, 0⟩

/-- A single well-formed `LINE` on layer `CUT` in the modelspace. -/
def ent_line_a : Entity :=
  ⟨"A", some "CUT", none, none, .line ⟨0, 0, 0⟩ ⟨10, 0, 0⟩⟩

def doc_line : Document := ⟨[ent_line_a], [], [], none, none⟩

/-- The empty document: no entities in any layout. -/
def doc_empty : Document := ⟨[], [], [], none, none⟩

/-- A document whose modelspace is empty while a paper-space layout holds
one entity. -/
def doc_paper_only : Document :=
  ⟨[], [[⟨"PA", some "CUT", none, none, .line ⟨0, 0, 0⟩ ⟨10, 0, 0⟩⟩]], [], none, none⟩

/-- Two closed polylines with different vertex sets on the same layer:
neither has resolvable start/end endpoints. -/
def ent_poly_a : Entity :=
  ⟨"A", some "CUT", none, none, .lwpolyline true [⟨0, 0, 0⟩, ⟨10, 0, 0⟩, ⟨10, 10, 0⟩]⟩

def ent_poly_b : Entity :=
  ⟨"B", some "CUT", none, none, .lwpolyline true [⟨50, 50, 0⟩, ⟨60, 50, 0⟩, ⟨60, 60, 0⟩]⟩

def doc_dup_polys : Document := ⟨[ent_poly_a, ent_poly_b], [], [], none, none⟩

/-- Two identical lines living in a paper-space layout (the modelspace is
empty). -/
def ent_paper_a : Entity :=
  ⟨"PA", some "CUT", none, none, .line ⟨0, 0, 0⟩ ⟨10, 0, 0⟩⟩

def ent_paper_b : Entity :=
  ⟨"PB", some "CUT", none, none, .line ⟨0, 0, 0⟩ ⟨10, 0, 0⟩⟩

def doc_paper_dup : Document := ⟨[], [[ent_paper_a, ent_paper_b]], [], none, none⟩

/-- A modelspace line whose `dxf.layer` attribute does not resolve. -/
def ent_no_layer : Entity := ⟨"A", none, none, none, .line ⟨0, 0, 0⟩ ⟨10, 0, 0⟩⟩

def doc_layer_fault : Document := ⟨[ent_no_layer], [], [], none, none⟩

/-- A closed two-vertex polyline of length 1/2: its bounding box is
undetermined (no native box, no start/end), yet it is a vector entity of
computed size below 1. -/
def ent_small_poly : Entity :=
  ⟨"P", some "CUT", none, none, .lwpolyline true [⟨0, 0, 0⟩, ⟨1/2, 0, 0⟩]⟩

def doc_small_poly : Document := ⟨[ent_small_poly], [], [], none, none⟩

/-- Two parallel lines 1/2 apart: exactly two of the four sampled-point
pairs lie at squared distance 1/4. -/
def ent_close_a : Entity :=
  ⟨"A", some "CUT", none, none, .line ⟨0, 0, 0⟩ ⟨5, 0, 0⟩⟩

def ent_close_b : Entity :=
  ⟨"B", some "CUT", none, none, .line ⟨0, 1/2, 0⟩ ⟨5, 1/2, 0⟩⟩

def doc_close_lines : Document := ⟨[ent_close_a, ent_close_b], [], [], none, none⟩

/-! ## Structural lemmas about the distance and duplicate validators -/

theorem flatMap_congr_fun {α β : Type} {l : List α} {f g : α → List β}
    (h : ∀ a ∈ l, f a = g a) : l.flatMap f = l.flatMap g := by
  induction l with
  | nil => rfl
  | cons a t ih =>
    simp only [List.flatMap_cons]
    rw [h a (List.mem_cons_self a t), ih fun b hb => h b (List.mem_cons_of_mem _ hb)]

theorem filterMap_if_replicate {α β : Type} (p : α → Prop) [DecidablePred p]
    (c : β) (l : List α) :
    (l.filterMap fun x => if p x then some c else none) =
      List.replicate (l.countP fun x => decide (p x)) c := by
  induction l with
  | nil => rfl
  | cons a t ih =>
    by_cases h : p a <;>
      simp [List.filterMap_cons, h, ih, List.countP_cons, List.replicate_succ]

/-- Every record of one pair block is the same id-25 record, repeated once
per offending pair of sampled points. -/
theorem distance_pair_records_replicate (M : FloatOracle) (m : ℚ) (e1 e2 : Entity) :
    distance_pair_records M m e1 e2 =
      List.replicate (offending_point_pairs M m e1 e2) (distance_report e1 e2) := by
  unfold distance_pair_records offending_point_pairs
  generalize get_entity_points M e1 = pts1
  induction pts1 with
  | nil => rfl
  | cons p ps ih =>
    simp only [List.flatMap_cons, List.length_append]
    rw [filterMap_if_replicate, ih, ← List.replicate_add]
    congr 1
    rw [← List.countP_eq_length_filter]

theorem mem_distance_pair_records {M : FloatOracle} {m : ℚ} {e1 e2 : Entity}
    {r : ErrorReport} (h : r ∈ distance_pair_records M m e1 e2) :
    r = distance_report e1 e2 := by
  rw [distance_pair_records_replicate] at h
  exact List.eq_of_mem_replicate h

/-- Every record of the distance check arises from an ordered pair of
entities of the scanned list. -/
theorem mem_check_vector_distances {M : FloatOracle} {m : ℚ} {es : List Entity}
    {r : ErrorReport} (h : r ∈ check_vector_distances M m es) :
    ∃ a ∈ es, ∃ b ∈ es, r = distance_report a b := by
  induction es with
  | nil => simp [check_vector_distances] at h
  | cons e t ih =>
    simp only [check_vector_distances] at h
    rcases List.mem_append.mp h with h1 | h2
    · by_cases hv : is_vector_entity e
      · rw [if_pos hv] at h1
        rcases List.mem_flatMap.mp h1 with ⟨b, hb, hrb⟩
        by_cases hvb : is_vector_entity b
        · rw [if_pos hvb] at hrb
          exact ⟨e, List.mem_cons_self e t, b, List.mem_cons_of_mem _ hb,
            mem_distance_pair_records hrb⟩
        · rw [if_neg hvb] at hrb; cases hrb
      · rw [if_neg hv] at h1; cases h1
    · rcases ih h2 with ⟨a, ha, b, hb, heq⟩
      exact ⟨a, List.mem_cons_of_mem _ ha, b, List.mem_cons_of_mem _ hb, heq⟩

theorem distance_report_inj {a b e1 e2 : Entity} :
    distance_report a b = distance_report e1 e2 ↔
      a.handle = e1.handle ∧ b.handle = e2.handle := by
  simp [distance_report]

theorem mem_insert_hash {h : HashData} {hd : String}
    {acc : List (HashData × List String)} {g : HashData × List String}
    (hg : g ∈ insert_hash h hd acc) :
    ∀ s ∈ g.2, (∃ gp ∈ acc, s ∈ gp.2) ∨ s = hd := by
  induction acc with
  | nil =>
    simp only [insert_hash, List.mem_singleton] at hg
    subst hg
    intro s hs
    right
    simpa using hs
  | cons p t ih =>
    simp only [insert_hash] at hg
    by_cases hk : p.1 = h
    · rw [if_pos hk] at hg
      rcases List.mem_cons.mp hg with h1 | h2
      · subst h1
        intro s hs
        rcases List.mem_append.mp hs with hs1 | hs2
        · exact Or.inl ⟨p, List.mem_cons_self p t, hs1⟩
        · exact Or.inr (by simpa using hs2)
      · intro s hs
        exact Or.inl ⟨g, List.mem_cons_of_mem _ h2, hs⟩
    · rw [if_neg hk] at hg
      rcases List.mem_cons.mp hg with h1 | h2
      · intro s hs
        exact Or.inl ⟨g, List.mem_cons.mpr (Or.inl h1), hs⟩
      · intro s hs
        rcases ih h2 s hs with ⟨gp, hgp, hsg⟩ | hr
        · exact Or.inl ⟨gp, List.mem_cons_of_mem _ hgp, hsg⟩
        · exact Or.inr hr

theorem mem_collect_hashes {l : List Entity} {acc : List (HashData × List String)}
    {g : HashData × List String} (hg : g ∈ collect_hashes l acc) :
    ∀ s ∈ g.2, (∃ gp ∈ acc, s ∈ gp.2) ∨ ∃ e ∈ l, s = e.handle := by
  induction l generalizing acc with
  | nil => exact fun s hs => Or.inl ⟨g, hg, hs⟩
  | cons e t ih =>
    intro s hs
    simp only [collect_hashes, get_entity_hash] at hg
    rcases ih hg s hs with ⟨gp, hgp, hsg⟩ | ⟨e2, he2, rfl⟩
    · rcases mem_insert_hash hgp s hsg with ⟨gq, hgq, hsq⟩ | rfl
      · exact Or.inl ⟨gq, hgq, hsq⟩
      · exact Or.inr ⟨e, List.mem_cons_self e t, rfl⟩
    · exact Or.inr ⟨e2, List.mem_cons_of_mem _ he2, rfl⟩

/-! ## Claims -/

/-- C1: for every analysis run with `totalEntities > 0`, the health
percentage returned equals
`max(0, 100 − 100·(criticalPoints + warningPoints + exportPoints)/(totalEntities·100))`
rounded to 2 decimals, where the three point values are the weighted
severity sums (weights 10 / 3 / 5) over the three returned collections. -/
theorem c1_health_formula (M : FloatOracle) (m : ℚ) (doc : Document)
    (hok : exceptOk (run_analysis M m doc) = true)
    (hpos : 0 < count_total_entities doc) :
    (analyze_dxf_file (.ok doc) M m).health_percentage =
      pyRound2 (max 0 (100 -
        100 * (((critical_points (analyze_dxf_file (.ok doc) M m).critical_errors +
                 warning_points (analyze_dxf_file (.ok doc) M m).warnings +
                 export_points (analyze_dxf_file (.ok doc) M m).export_errors : ℤ) : ℚ)) /
          ((count_total_entities doc : ℚ) * 100))) := by
  rcases hra : run_analysis M m doc with msg | st
  · rw [hra] at hok; simp [exceptOk] at hok
  · have h0 : count_total_entities doc ≠ 0 := Nat.pos_iff_ne_zero.mp hpos
    have hne : (count_total_entities doc : ℚ) * 100 ≠ 0 :=
      mul_ne_zero (by exact_mod_cast h0) (by norm_num)
    simp only [analyze_dxf_file, hra, calculate_health_percentage, h0, if_false, hne,
      reduceIte]
    congr 2
    ring

/-- Witness for C1 at a one-entity document. -/
theorem c1_health_formula_witness :
    (exceptOk (run_analysis idOracle 1 doc_line) = true ∧
      0 < count_total_entities doc_line) ∧
    (analyze_dxf_file (.ok doc_line) idOracle 1).health_percentage =
      pyRound2 (max 0 (100 -
        100 * (((critical_points (analyze_dxf_file (.ok doc_line) idOracle 1).critical_errors +
                 warning_points (analyze_dxf_file (.ok doc_line) idOracle 1).warnings +
                 export_points (analyze_dxf_file (.ok doc_line) idOracle 1).export_errors : ℤ) : ℚ)) /
          ((count_total_entities doc_line : ℚ) * 100))) :=
  ⟨⟨by decide, by decide⟩, c1_health_formula idOracle 1 doc_line (by decide) (by decide)⟩

/-- C2, counterexample: on the empty document the critical-error
collection is not empty — `_check_layer_usage` appends the id-26 record —
so the claimed `critical = []` fails. -/
theorem c2_counterexample :
    count_total_entities doc_empty = 0 ∧
    (analyze_dxf_file (.ok doc_empty) idOracle 1).critical_errors = [no_layers_report] ∧
    (analyze_dxf_file (.ok doc_empty) idOracle 1).critical_errors ≠ [] := by
  refine ⟨rfl, by decide, by decide⟩

/-- C2 as amended: with `totalEntities = 0` the health percentage is
exactly 0.0 and the `maxPossible == 0` branch returning 100.0 is never
taken (the else-branch of the scorer is always the rounded formula), but
the critical-error collection is not empty: it holds exactly the id-26
record (whose affected-entities list is empty). -/
theorem c2_empty_document (M : FloatOracle) (m : ℚ) (doc : Document)
    (h : count_total_entities doc = 0) :
    (analyze_dxf_file (.ok doc) M m).health_percentage = 0 ∧
    (analyze_dxf_file (.ok doc) M m).critical_errors = [no_layers_report] ∧
    (∀ (t : ℕ) (st : AState), calculate_health_percentage t st =
      if t = 0 then 0
      else pyRound2 (max 0 (100 -
        ((critical_points st.errors + warning_points st.warnings +
          export_points st.export_errors : ℤ) : ℚ) / ((t : ℚ) * 100) * 100))) := by
  have hlen : doc.layoutsAll.flatten.length = 0 := by
    rw [List.length_flatten]; exact h
  have hflat : doc.layoutsAll.flatten = [] := List.length_eq_zero.mp hlen
  have hmsp : doc.msp = [] := by
    have : doc.layoutsAll.flatten = doc.msp ++ doc.paper.flatten := by
      simp [Document.layoutsAll]
    rw [this] at hflat
    exact (List.append_eq_nil.mp hflat).1
  have hinv : check_invisible_layers doc = [] := by
    unfold check_invisible_layers
    rw [hflat]
    refine List.filterMap_eq_nil_iff.mpr fun nl _ => ?_
    cases h2 : (nl.2.is_off || nl.2.is_frozen) <;> simp [h2]
  have hdup : check_duplicate_vectors doc = [] := by
    unfold check_duplicate_vectors
    rw [hflat]
    rfl
  have hvce : validate_critical_errors doc = .ok ([], []) := by
    unfold validate_critical_errors
    rw [hflat, hdup, hinv]
    rfl
  have hw : validate_warnings doc = [] := by
    unfold validate_warnings check_reference_layers check_excessive_points
    rw [hflat]
    rfl
  have hra : run_analysis M m doc = .ok ⟨[no_layers_report], [],
      validate_file_structure doc ++ [] ++ validate_export_errors doc⟩ := by
    unfold run_analysis
    rw [hvce, hmsp, hw]
    rfl
  refine ⟨?_, ?_, ?_⟩
  · simp [analyze_dxf_file, hra, calculate_health_percentage, h]
  · simp [analyze_dxf_file, hra]
  · intro t st
    by_cases ht : t = 0
    · simp [calculate_health_percentage, ht]
    · have hne : (t : ℚ) * 100 ≠ 0 :=
        mul_ne_zero (by exact_mod_cast ht) (by norm_num)
      simp [calculate_health_percentage, ht, hne]

/-- Witness for C2 as amended, at the empty document. -/
theorem c2_empty_document_witness :
    count_total_entities doc_empty = 0 ∧
    (analyze_dxf_file (.ok doc_empty) idOracle 1).health_percentage = 0 :=
  ⟨by decide, (c2_empty_document idOracle 1 doc_empty (by decide)).1⟩

/-- C9: for every run whose load-and-validate block completes, the
summary's status is `"READY"` exactly when the returned critical
collection is empty, `"NEEDS_REVIEW"` exactly when it holds 1 to 4
records, `"CRITICAL"` exactly when it holds 5 or more; on a load failure
the status is the string `"ERROR"`, outside that three-value set. -/
theorem c9_summary_status (M : FloatOracle) (m : ℚ) (doc : Document) (msg : String)
    (hok : exceptOk (run_analysis M m doc) = true) :
    (((analyze_dxf_file (.ok doc) M m).summary.status = "READY" ↔
        (analyze_dxf_file (.ok doc) M m).critical_errors.length = 0) ∧
     ((analyze_dxf_file (.ok doc) M m).summary.status = "NEEDS_REVIEW" ↔
        (1 ≤ (analyze_dxf_file (.ok doc) M m).critical_errors.length ∧
         (analyze_dxf_file (.ok doc) M m).critical_errors.length ≤ 4)) ∧
     ((analyze_dxf_file (.ok doc) M m).summary.status = "CRITICAL" ↔
        5 ≤ (analyze_dxf_file (.ok doc) M m).critical_errors.length)) ∧
    ((analyze_dxf_file (.error msg) M m).summary.status = "ERROR" ∧
      "ERROR" ∉ ["READY", "NEEDS_REVIEW", "CRITICAL"]) := by
  constructor
  · rcases hra : run_analysis M m doc with msg' | st
    · rw [hra] at hok; simp [exceptOk] at hok
    · simp only [analyze_dxf_file, hra, generate_summary, Summary.status]
      by_cases h0 : st.errors.length = 0
      · simp [h0]
      · by_cases h5 : st.errors.length < 5
        · simp [h0, h5]; omega
        · simp [h0, h5]; omega
  · exact ⟨rfl, by decide⟩

/-- Witness for C9 at a one-entity document with no critical records. -/
theorem c9_summary_status_witness :
    exceptOk (run_analysis idOracle 1 doc_line) = true ∧
    ((analyze_dxf_file (.ok doc_line) idOracle 1).summary.status = "READY" ↔
      (analyze_dxf_file (.ok doc_line) idOracle 1).critical_errors.length = 0) :=
  ⟨by decide, (c9_summary_status idOracle 1 doc_line "corrupt" (by decide)).1.1⟩

/-- C4 / the id-26 slip: when the modelspace holds no entities, the
id-26 record is appended with `affected_entities = list(used_layers)` —
the empty list — violating the "at least one affected entity" invariant
that every other append site satisfies (its severity 10 does lie in
[1, 10]). -/
theorem c4_id26_empty_affected :
    check_layer_usage doc_paper_only.msp = .ok [no_layers_report] ∧
    (analyze_dxf_file (.ok doc_paper_only) idOracle 1).critical_errors = [no_layers_report] ∧
    0 < count_total_entities doc_paper_only ∧
    no_layers_report.affected_entities.length = 0 ∧
    1 ≤ no_layers_report.severity_score ∧ no_layers_report.severity_score ≤ 10 :=
  ⟨rfl, by decide, by decide, rfl, by decide, by decide⟩

/-- C5, counterexample: two polylines with different vertex sets (and no
resolvable start/end endpoints) on the same layer are grouped by the
`{type, layer}`-only fingerprint and reported as duplicates in an id-7
record — they are not excluded from fingerprinting. -/
theorem c5_counterexample :
    ent_poly_a.start? = none ∧ ent_poly_b.start? = none ∧
    ent_poly_a.vertices ≠ ent_poly_b.vertices ∧
    check_duplicate_vectors doc_dup_polys = [duplicate_report ["A", "B"]] :=
  ⟨rfl, rfl, by decide, by decide⟩

/-- C5 as amended: the fingerprint always resolves (the `try`/`except` has
nothing to catch) and consists of the type tag, the layer name, and —
only when start/end are resolvable — the endpoint coordinates rounded to
3 decimal places; two entities share a fingerprint exactly when those
three components agree, so endpoint-less entities are fingerprinted by
type and layer alone rather than excluded. -/
theorem c5_fingerprint (e1 e2 : Entity) :
    (get_entity_hash e1).isSome = true ∧
    get_entity_hash e1 = some ⟨e1.dxftype, e1.layer, entity_hash_coords e1⟩ ∧
    (get_entity_hash e1 = get_entity_hash e2 ↔
      (e1.dxftype = e2.dxftype ∧ e1.layer = e2.layer ∧
       entity_hash_coords e1 = entity_hash_coords e2)) := by
  refine ⟨rfl, rfl, ?_⟩
  simp [get_entity_hash, HashData.mk.injEq]

/-- C6, counterexample: two identical lines that live in a paper-space
layout (the modelspace is empty) are still grouped by
`_check_duplicate_vectors`, which iterates every layout, and their handles
are referenced by an id-7 record. -/
theorem c6_counterexample :
    doc_paper_dup.msp = [] ∧
    check_duplicate_vectors doc_paper_dup = [duplicate_report ["PA", "PB"]] :=
  ⟨rfl, by with_unfolding_all decide⟩

/-- C6 as amended: the distance check (id 25) indeed only references
entities of the primary drawing space — every id-25 record lists the
handles of two modelspace entities — but the duplicate check (id 7) runs
over every layout, so its records reference entities of any layout
(including paper space, as the counterexample shows). -/
theorem c6_layout_scope (M : FloatOracle) (m : ℚ) (doc : Document) :
    (∀ r ∈ check_vector_distances M m doc.msp,
      r.error_id = 25 ∧
      ∃ a ∈ doc.msp, ∃ b ∈ doc.msp, r.affected_entities = [a.handle, b.handle]) ∧
    (∀ r ∈ check_duplicate_vectors doc, ∀ s ∈ r.affected_entities,
      ∃ e ∈ doc.layoutsAll.flatten, s = e.handle) := by
  constructor
  · intro r hr
    rcases mem_check_vector_distances hr with ⟨a, ha, b, hb, rfl⟩
    exact ⟨rfl, a, ha, b, hb, rfl⟩
  · intro r hr s hsr
    unfold check_duplicate_vectors at hr
    rcases List.mem_filterMap.mp hr with ⟨g, hg, hif⟩
    by_cases hlen : g.2.length > 1
    · rw [if_pos hlen] at hif
      have hrg : r = duplicate_report g.2 := by
        injection hif with h
        exact h.symm
      rcases mem_collect_hashes hg s (by
          rw [hrg] at hsr
          simpa [duplicate_report] using hsr) with ⟨gp, hgp, _⟩ | h2
      · cases hgp
      · exact h2
    · rw [if_neg hlen] at hif; cases hif

/-- Witness for C6 as amended: a record the distance check emits on a
two-line modelspace references two modelspace entities. -/
theorem c6_layout_scope_witness :
    distance_report ent_close_a ent_close_b ∈
      check_vector_distances idOracle 1 doc_close_lines.msp ∧
    ((distance_report ent_close_a ent_close_b).error_id = 25 ∧
      ∃ a ∈ doc_close_lines.msp, ∃ b ∈ doc_close_lines.msp,
        (distance_report ent_close_a ent_close_b).affected_entities =
          [a.handle, b.handle]) :=
  ⟨by with_unfolding_all decide,
   (c6_layout_scope idOracle 1 doc_close_lines).1 _ (by with_unfolding_all decide)⟩

/-- The only condition under which the per-entity body of
`_validate_critical_errors` raises: an open polyline whose layer
attribute does not resolve (the check-1 arm reads `entity.dxf.layer`
unguarded). -/
def crit_faults (e : Entity) : Bool :=
  (e.dxftype == "LWPOLYLINE" || e.dxftype == "POLYLINE") && !e.is_closed &&
    e.layer.isNone

theorem check_open_vectors_ok {e : Entity} (h : crit_faults e = false) :
    ∃ l, check_open_vectors e = .ok l := by
  unfold check_open_vectors
  by_cases hc : ((e.dxftype == "LWPOLYLINE" || e.dxftype == "POLYLINE") &&
      !e.is_closed) = true
  · rcases hl : e.layer with _ | l
    · exfalso
      simp [crit_faults, hc, hl] at h
    · rw [if_pos hc]
      exact ⟨_, rfl⟩
  · rw [if_neg hc]
    exact ⟨_, rfl⟩

theorem crit_entity_ok {e : Entity} (h : crit_faults e = false) :
    ∃ p, crit_entity e = .ok p := by
  rcases check_open_vectors_ok h with ⟨l, hl⟩
  unfold crit_entity
  rw [hl]
  exact ⟨_, rfl⟩

theorem validate_critical_loop_ok {l : List Entity}
    (h : ∀ e ∈ l, crit_faults e = false) :
    ∃ p, validate_critical_loop l = .ok p := by
  induction l with
  | nil => exact ⟨_, rfl⟩
  | cons e t ih =>
    rcases crit_entity_ok (h e (List.mem_cons_self e t)) with ⟨pe, hpe⟩
    rcases ih (fun b hb => h b (List.mem_cons_of_mem _ hb)) with ⟨pt, hpt⟩
    refine ⟨(pe.1 ++ pt.1, pe.2 ++ pt.2), ?_⟩
    simp only [validate_critical_loop, hpe, hpt]

theorem used_layers_loop_error {l : List Entity}
    (h : ∃ e ∈ l, e.layer = none) :
    used_layers_loop l = .error layer_fault_msg := by
  induction l with
  | nil => simp at h
  | cons e t ih =>
    rcases hl : e.layer with _ | s
    · simp only [used_layers_loop, hl]
    · simp only [used_layers_loop, hl]
      have ht : ∃ b ∈ t, b.layer = none := by
        rcases h with ⟨b, hb, hbl⟩
        rcases List.mem_cons.mp hb with rfl | hbt
        · rw [hl] at hbl; cases hbl
        · exact ⟨b, hbt, hbl⟩
      rw [ih ht]

/-- C7, counterexample: a modelspace line without a resolvable layer
attribute.  `_validate_critical_errors` accumulates the id-2 record for
it, but the unguarded layer read inside `_check_layer_usage` raises, the
top-level handler replaces the whole output with the synthetic
load-failure result, and the accumulated id-2 record is lost — the fault
does not "skip only the offending entity". -/
theorem c7_counterexample :
    validate_critical_errors doc_layer_fault = .ok ([no_layer_report "A"], []) ∧
    analyze_dxf_file (.ok doc_layer_fault) idOracle 1 =
      load_failure_result layer_fault_msg ∧
    no_layer_report "A" ∉
      (analyze_dxf_file (.ok doc_layer_fault) idOracle 1).critical_errors :=
  ⟨by with_unfolding_all rfl, by with_unfolding_all decide,
   by with_unfolding_all decide⟩

/-- C7 as amended: only the bounding-box helper, the fingerprint helper
and the file-size check swallow per-entity faults.  A computation fault
elsewhere — here, an unresolvable layer attribute read by the layer-usage
validator — aborts the entire run: the caller still receives a well-formed
`AnalysisResult`, but it is the synthetic load-failure result (one id-0
record, zero entities, health 0.0), and every record accumulated by the
validators that already ran is discarded. -/
theorem c7_fault_aborts_run (M : FloatOracle) (m : ℚ) (doc : Document)
    (hsafe : ∀ e ∈ doc.layoutsAll.flatten, crit_faults e = false)
    (hfault : ∃ e ∈ doc.msp, e.layer = none) :
    analyze_dxf_file (.ok doc) M m = load_failure_result layer_fault_msg := by
  rcases validate_critical_loop_ok hsafe with ⟨p, hp⟩
  have hcl : check_layer_usage doc.msp = .error layer_fault_msg := by
    unfold check_layer_usage
    rw [used_layers_loop_error hfault]
  have hvce : validate_critical_errors doc =
      .ok (p.1 ++ check_duplicate_vectors doc ++ check_invisible_layers doc, p.2) := by
    unfold validate_critical_errors
    rw [hp]
  simp only [analyze_dxf_file, run_analysis, hvce, hcl]

/-- Witness for C7 as amended, at the one-line layerless document. -/
theorem c7_fault_aborts_run_witness :
    (∀ e ∈ doc_layer_fault.layoutsAll.flatten, crit_faults e = false) ∧
    (∃ e ∈ doc_layer_fault.msp, e.layer = none) ∧
    analyze_dxf_file (.ok doc_layer_fault) idOracle 1 =
      load_failure_result layer_fault_msg :=
  ⟨by decide, by decide,
   c7_fault_aborts_run idOracle 1 doc_layer_fault (by decide) (by decide)⟩

/-! ## Which entities the per-entity records can reference -/

theorem mem_if_singleton {α : Type} {c : Prop} [Decidable c] {x r : α}
    (h : r ∈ (if c then [x] else [])) : r = x := by
  split at h
  · simpa using h
  · cases h

theorem mem_check_open_vectors {e : Entity} {l : List ErrorReport} {r : ErrorReport}
    (h : check_open_vectors e = .ok l) (hr : r ∈ l) :
    r = open_vector_report e.handle := by
  unfold check_open_vectors at h
  split at h
  · split at h
    · cases h
    · injection h with h'
      subst h'
      exact mem_if_singleton hr
  · injection h with h'
    subst h'
    cases hr

/-- Every id-5 record of the per-entity loop of
`_validate_critical_errors` references one entity whose bounding box was
determined. -/
theorem crit_entity_id5 {e : Entity} {a b : List ErrorReport} {r : ErrorReport}
    (h : crit_entity e = .ok (a, b)) (hr : r ∈ a) (h5 : r.error_id = 5) :
    r = out_of_area_report e.handle ∧ (get_entity_bounds e).isSome = true := by
  unfold crit_entity at h
  rcases hov : check_open_vectors e with msg | errs1 <;> rw [hov] at h
  · cases h
  · injection h with h'
    simp only [Prod.mk.injEq] at h'
    obtain ⟨rfl, rfl⟩ := h'
    simp only [List.mem_append] at hr
    rcases hr with ((((h1 | h2) | h3) | h4) | h5m) | h9
    · rw [mem_check_open_vectors hov h1] at h5
      simp [open_vector_report] at h5
    · rw [mem_if_singleton h2] at h5
      simp [no_layer_report] at h5
    · rw [mem_if_singleton h3] at h5
      simp [text_report] at h5
    · exfalso
      split at h4
      · rw [mem_if_singleton h4] at h5
        simp [bad_layer_report] at h5
      · cases h4
    · split at h5m
      · rename_i x0 y0 x1 y1 heq
        refine ⟨mem_if_singleton h5m, ?_⟩
        rw [heq]
        rfl
      · cases h5m
    · exfalso
      split at h9
      · rw [mem_if_singleton h9] at h5
        simp [lineweight_report] at h5
      · cases h9

theorem validate_critical_loop_id5 {l : List Entity} {errs exps : List ErrorReport}
    (h : validate_critical_loop l = .ok (errs, exps)) {r : ErrorReport}
    (hr : r ∈ errs) (h5 : r.error_id = 5) :
    ∃ a ∈ l, r = out_of_area_report a.handle ∧
      (get_entity_bounds a).isSome = true := by
  induction l generalizing errs exps with
  | nil =>
    simp only [validate_critical_loop] at h
    injection h with h'
    simp only [Prod.mk.injEq] at h'
    obtain ⟨rfl, rfl⟩ := h'
    cases hr
  | cons e t ih =>
    simp only [validate_critical_loop] at h
    rcases hce : crit_entity e with msg | p <;> rw [hce] at h
    · cases h
    · rcases hlp : validate_critical_loop t with msg | q <;> rw [hlp] at h
      · cases h
      · injection h with h'
        simp only [Prod.mk.injEq] at h'
        obtain ⟨rfl, rfl⟩ := h'
        rcases List.mem_append.mp hr with h1 | h2
        · rcases crit_entity_id5 (by rw [hce]) h1 h5 with ⟨heq, hsome⟩
          exact ⟨e, List.mem_cons_self e t, heq, hsome⟩
        · rcases ih hlp h2 with ⟨a, ha, heq, hsome⟩
          exact ⟨a, List.mem_cons_of_mem _ ha, heq, hsome⟩

theorem mem_check_duplicate_vectors_id {doc : Document} {r : ErrorReport}
    (hr : r ∈ check_duplicate_vectors doc) : r.error_id = 7 := by
  unfold check_duplicate_vectors at hr
  rcases List.mem_filterMap.mp hr with ⟨g, _, hif⟩
  split at hif
  · injection hif with h'
    rw [← h']
    rfl
  · cases hif

theorem mem_check_invisible_layers_id {doc : Document} {r : ErrorReport}
    (hr : r ∈ check_invisible_layers doc) : r.error_id = 6 := by
  unfold check_invisible_layers at hr
  rcases List.mem_filterMap.mp hr with ⟨nl, _, hif⟩
  split at hif
  · split at hif
    · injection hif with h'
      rw [← h']
      rfl
    · cases hif
  · cases hif

/-- Every id-11 record of `_validate_warnings` references one entity whose
bounding box was determined. -/
theorem warn_entity_id11 {e : Entity} {r : ErrorReport} (hr : r ∈ warn_entity e) :
    (get_entity_bounds e).isSome = true ∧
      (r = too_small_report e.handle ∨ r = too_large_report e.handle) := by
  unfold warn_entity at hr
  split at hr
  · rename_i x0 y0 x1 y1 heq
    refine ⟨by rw [heq]; rfl, ?_⟩
    rcases List.mem_append.mp hr with h1 | h2
    · exact Or.inl (mem_if_singleton h1)
    · exact Or.inr (mem_if_singleton h2)
  · cases hr

theorem validate_warnings_id11 {doc : Document} {r : ErrorReport}
    (hr : r ∈ validate_warnings doc) (h11 : r.error_id = 11) :
    ∃ a ∈ doc.layoutsAll.flatten, (get_entity_bounds a).isSome = true ∧
      (r = too_small_report a.handle ∨ r = too_large_report a.handle) := by
  unfold validate_warnings at hr
  rcases List.mem_append.mp hr with h1 | hex
  · rcases List.mem_append.mp h1 with hw | href
    · rcases List.mem_flatMap.mp hw with ⟨a, ha, hra⟩
      exact ⟨a, ha, warn_entity_id11 hra⟩
    · exfalso
      unfold check_reference_layers at href
      rcases List.mem_filterMap.mp href with ⟨a, _, hif⟩
      split at hif
      · split at hif
        · injection hif with h'
          rw [← h'] at h11
          simp [reference_layer_report] at h11
        · cases hif
      · cases hif
  · exfalso
    unfold check_excessive_points at hex
    rcases List.mem_filterMap.mp hex with ⟨a, _, hif⟩
    split at hif
    · injection hif with h'
      rw [← h'] at h11
      simp [excessive_points_report] at h11
    · cases hif

theorem check_dimensions_affected {M : FloatOracle} {msp : List Entity}
    {r : ErrorReport} (hr : r ∈ check_dimensions M msp) :
    r.affected_entities = ["FILE"] := by
  unfold check_dimensions at hr
  split at hr
  · cases hr
  · rcases List.mem_append.mp hr with h1 | h2
    · rw [mem_if_singleton h1]; rfl
    · rw [mem_if_singleton h2]; rfl

/-- C8, counterexample: a bounds-undetermined vector entity (a two-vertex
polyline with no native box and no start/end attributes) is still
referenced by an id-28 record, because `_validate_entities` gates id 28 on
the computed entity size, not on the bounding box. -/
theorem c8_counterexample :
    get_entity_bounds ent_small_poly = none ∧
    is_vector_entity ent_small_poly = true ∧
    ((analyze_dxf_file (.ok doc_small_poly) idOracle 1).warnings.filter
      (fun r => decide (r.error_id = 28))).map (fun r => r.affected_entities) =
      [["P"]] :=
  ⟨rfl, rfl, by with_unfolding_all decide⟩

/-- C8 as amended: an entity whose bounding box is undetermined is never
referenced by the id-5 or id-11 records (those checks are gated on the
bounding box), and the id-29/id-30 records reference only the `"FILE"`
sentinel — but the id-28 check is gated on the computed size and can
reference such an entity (see the counterexample). -/
theorem c8_bounds_skip (M : FloatOracle) (doc : Document) (e : Entity)
    (hmem : e ∈ doc.layoutsAll.flatten) (hb : get_entity_bounds e = none)
    (hnd : (doc.layoutsAll.flatten.map Entity.handle).Nodup)
    (errs exps : List ErrorReport)
    (hok : validate_critical_errors doc = .ok (errs, exps)) :
    (∀ r ∈ errs, r.error_id = 5 → e.handle ∉ r.affected_entities) ∧
    (∀ r ∈ validate_warnings doc, r.error_id = 11 →
      e.handle ∉ r.affected_entities) ∧
    (∀ r ∈ check_dimensions M doc.msp, r.affected_entities = ["FILE"]) := by
  have hinj := List.inj_on_of_nodup_map hnd
  refine ⟨?_, ?_, fun r hr => check_dimensions_affected hr⟩
  · intro r hr h5 hcontra
    unfold validate_critical_errors at hok
    rcases hlp : validate_critical_loop doc.layoutsAll.flatten with msg | p <;>
      rw [hlp] at hok
    · cases hok
    · injection hok with h'
      simp only [Prod.mk.injEq] at h'
      obtain ⟨hE, rfl⟩ := h'
      rw [← hE] at hr
      rcases List.mem_append.mp hr with h1 | hinv
      · rcases List.mem_append.mp h1 with hl | hdup
        · rcases validate_critical_loop_id5 (by rw [hlp]) hl h5 with
            ⟨a, ha, rfl, hsome⟩
          have hha : e.handle = a.handle := by
            simpa [out_of_area_report] using hcontra
          have hea : e = a := hinj hmem ha hha
          rw [← hea, hb] at hsome
          cases hsome
        · rw [mem_check_duplicate_vectors_id hdup] at h5
          cases h5
      · rw [mem_check_invisible_layers_id hinv] at h5
        cases h5
  · intro r hr h11 hcontra
    rcases validate_warnings_id11 hr h11 with ⟨a, ha, hsome, hcase⟩
    have hha : e.handle = a.handle := by
      rcases hcase with rfl | rfl <;>
        simpa [too_small_report, too_large_report] using hcontra
    have hea : e = a := hinj hmem ha hha
    rw [← hea, hb] at hsome
    cases hsome

/-- Witness for C8 as amended, at the small-polyline document. -/
theorem c8_bounds_skip_witness :
    (ent_small_poly ∈ doc_small_poly.layoutsAll.flatten ∧
      get_entity_bounds ent_small_poly = none ∧
      (doc_small_poly.layoutsAll.flatten.map Entity.handle).Nodup ∧
      validate_critical_errors doc_small_poly = .ok ([], [])) ∧
    (∀ r ∈ check_dimensions idOracle doc_small_poly.msp,
      r.affected_entities = ["FILE"]) :=
  ⟨⟨by with_unfolding_all decide, rfl, by decide, by with_unfolding_all rfl⟩,
   (c8_bounds_skip idOracle doc_small_poly ent_small_poly
      (by with_unfolding_all decide) rfl
      (by decide) [] [] (by with_unfolding_all rfl)).2.2⟩

/-! ## The distance condition against the real Euclidean distance -/

/-- The comparison behaviour assumed of the float square-root routine,
relative to a fixed minimum distance `m`: exact at 0, positive on
positives, and deciding the comparison against `m` exactly as the true
square root does. -/
structure SqrtSpec (f : ℚ → ℚ) (m : ℚ) : Prop where
  zero : f 0 = 0
  pos : ∀ q : ℚ, 0 < q → 0 < f q
  lt : ∀ q : ℚ, 0 ≤ q → (f q < m ↔ q < m ^ 2)

theorem sq_dist_nonneg (p1 p2 : Point) : 0 ≤ sq_dist p1 p2 := by
  unfold sq_dist
  positivity

/-- The computed firing condition of the id-25 check coincides with
`0 < distance < minimum` for the real Euclidean distance. -/
theorem distance_condition_iff {M : FloatOracle} {m : ℚ} (hm : 0 ≤ m)
    (hs : SqrtSpec M.sqrt m) (p1 p2 : Point) :
    distance_condition M m p1 p2 ↔
      (0 < distance_spec p1 p2 ∧ distance_spec p1 p2 < (m : ℝ)) := by
  have hd := sq_dist_nonneg p1 p2
  unfold distance_condition calculate_distance distance_spec
  constructor
  · rintro ⟨h1, h2⟩
    have hdpos : 0 < sq_dist p1 p2 := by
      rcases lt_or_eq_of_le hd with h | h
      · exact h
      · exfalso
        rw [← h, hs.zero] at h1
        exact lt_irrefl 0 h1
    have hdlt : sq_dist p1 p2 < m ^ 2 := (hs.lt _ hd).mp h2
    have hm2 : (0 : ℚ) < m ^ 2 := lt_trans hdpos hdlt
    have hmpos : 0 < m := by
      rcases lt_or_eq_of_le hm with h | h
      · exact h
      · exfalso
        rw [← h] at hm2
        simp at hm2
    refine ⟨Real.sqrt_pos.mpr (by exact_mod_cast hdpos), ?_⟩
    rw [Real.sqrt_lt' (by exact_mod_cast hmpos)]
    exact_mod_cast hdlt
  · rintro ⟨h1, h2⟩
    have hdpos : 0 < sq_dist p1 p2 := by exact_mod_cast Real.sqrt_pos.mp h1
    have hmposR : (0 : ℝ) < (m : ℝ) := lt_of_le_of_lt (Real.sqrt_nonneg _) h2
    have hdlt : sq_dist p1 p2 < m ^ 2 := by
      have := (Real.sqrt_lt' hmposR).mp h2
      exact_mod_cast this
    exact ⟨hs.pos _ hdpos, (hs.lt _ hd).mpr hdlt⟩

theorem filterMap_congr_fun {α β : Type} {l : List α} {f g : α → Option β}
    (h : ∀ a ∈ l, f a = g a) : l.filterMap f = l.filterMap g := by
  induction l with
  | nil => rfl
  | cons a t ih =>
    rw [List.filterMap_cons, List.filterMap_cons, h a (List.mem_cons_self a t),
      ih fun b hb => h b (List.mem_cons_of_mem _ hb)]

theorem distance_pair_records_spec_eq {M : FloatOracle} {m : ℚ} (hm : 0 ≤ m)
    (hs : SqrtSpec M.sqrt m) (e1 e2 : Entity) :
    distance_pair_records M m e1 e2 = distance_pair_records_spec m e1 e2 M := by
  unfold distance_pair_records distance_pair_records_spec
  refine flatMap_congr_fun fun p1 _ => ?_
  refine filterMap_congr_fun fun p2 _ => ?_
  exact if_congr (distance_condition_iff hm hs p1 p2) rfl rfl

theorem check_vector_distances_spec_eq {M : FloatOracle} {m : ℚ} (hm : 0 ≤ m)
    (hs : SqrtSpec M.sqrt m) (es : List Entity) :
    check_vector_distances M m es = check_vector_distances_spec M m es := by
  induction es with
  | nil => rfl
  | cons e t ih =>
    simp only [check_vector_distances, check_vector_distances_spec]
    rw [ih]
    congr 1
    by_cases hv : is_vector_entity e
    · rw [if_pos hv, if_pos hv]
      refine flatMap_congr_fun fun b _ => ?_
      by_cases hvb : is_vector_entity b
      · rw [if_pos hvb, if_pos hvb, distance_pair_records_spec_eq hm hs]
      · rw [if_neg hvb, if_neg hvb]
    · rw [if_neg hv, if_neg hv]

/-- C3: under the stated square-root assumptions, the distance validator
computes exactly its real-distance specification — for each pair of
sampled points of two distinct vector entities of the scanned modelspace
list, the id-25 record (listing both handles) is appended exactly when
`0 < distance(p1, p2) < minimum` holds of the real Euclidean distance —
and a pair at distance exactly 0 never fires the condition. -/
theorem c3_distance_iff (M : FloatOracle) (m : ℚ) (hm : 0 ≤ m)
    (hs : SqrtSpec M.sqrt m) :
    (∀ es, check_vector_distances M m es = check_vector_distances_spec M m es) ∧
    (∀ p1 p2 : Point, distance_condition M m p1 p2 ↔
      (0 < distance_spec p1 p2 ∧ distance_spec p1 p2 < (m : ℝ))) ∧
    (∀ p1 p2 : Point, sq_dist p1 p2 = 0 → ¬ distance_condition M m p1 p2) := by
  refine ⟨check_vector_distances_spec_eq hm hs, distance_condition_iff hm hs, ?_⟩
  intro p1 p2 h0 hcond
  rcases hcond with ⟨h1, _⟩
  unfold calculate_distance at h1
  rw [h0, hs.zero] at h1
  exact lt_irrefl 0 h1

/-- Witness for C3: the identity square root satisfies the assumptions at
the default minimum distance 1. -/
theorem c3_distance_iff_witness :
    (0 : ℚ) ≤ 1 ∧ SqrtSpec idOracle.sqrt 1 ∧
    (∀ es, check_vector_distances idOracle 1 es =
      check_vector_distances_spec idOracle 1 es) :=
  have hs : SqrtSpec idOracle.sqrt 1 :=
    ⟨rfl, fun _ h => h, fun q _ => by norm_num [idOracle]⟩
  ⟨by norm_num, hs, (c3_distance_iff idOracle 1 (by norm_num) hs).1⟩

/-! ## Counting the id-25 records of one entity pair -/

theorem countP_distance_pair_records_self (M : FloatOracle) (m : ℚ)
    (e1 e2 : Entity) :
    (distance_pair_records M m e1 e2).countP
        (fun r => decide (r = distance_report e1 e2)) =
      offending_point_pairs M m e1 e2 := by
  rw [distance_pair_records_replicate, List.countP_replicate]
  simp

theorem countP_distance_pair_records_ne {M : FloatOracle} {m : ℚ}
    {e1 e2 a b : Entity} (h : ¬(a.handle = e1.handle ∧ b.handle = e2.handle)) :
    (distance_pair_records M m a b).countP
        (fun r => decide (r = distance_report e1 e2)) = 0 := by
  rw [distance_pair_records_replicate, List.countP_replicate]
  simp [distance_report_inj, h]

theorem countP_block_zero {M : FloatOracle} {m : ℚ} {e1 e2 a : Entity}
    {l : List Entity} (h : a.handle ≠ e1.handle) :
    ((l.flatMap fun b =>
        if is_vector_entity b then distance_pair_records M m a b else []).countP
      (fun r => decide (r = distance_report e1 e2))) = 0 := by
  induction l with
  | nil => rfl
  | cons b t ih =>
    rw [List.flatMap_cons, List.countP_append, ih, Nat.add_zero]
    by_cases hvb : is_vector_entity b
    · rw [if_pos hvb]
      exact countP_distance_pair_records_ne fun hc => h hc.1
    · rw [if_neg hvb]
      rfl

theorem countP_block_zero2 {M : FloatOracle} {m : ℚ} {e1 e2 : Entity}
    {l : List Entity} (h : ∀ b ∈ l, b.handle ≠ e2.handle) :
    ((l.flatMap fun b =>
        if is_vector_entity b then distance_pair_records M m e1 b else []).countP
      (fun r => decide (r = distance_report e1 e2))) = 0 := by
  induction l with
  | nil => rfl
  | cons b t ih =>
    rw [List.flatMap_cons, List.countP_append,
      ih fun c hc => h c (List.mem_cons_of_mem _ hc), Nat.add_zero]
    by_cases hvb : is_vector_entity b
    · rw [if_pos hvb]
      exact countP_distance_pair_records_ne fun hc =>
        h b (List.mem_cons_self b t) hc.2
    · rw [if_neg hvb]
      rfl

theorem countP_cvd_zero {M : FloatOracle} {m : ℚ} {e1 e2 : Entity}
    {l : List Entity} (h : e1.handle ∉ l.map Entity.handle) :
    (check_vector_distances M m l).countP
        (fun r => decide (r = distance_report e1 e2)) = 0 := by
  rw [List.countP_eq_zero]
  intro r hr
  rcases mem_check_vector_distances hr with ⟨a, ha, b, _, rfl⟩
  simp only [decide_eq_true_eq, distance_report_inj]
  rintro ⟨h1, _⟩
  exact h (h1 ▸ List.mem_map_of_mem Entity.handle ha)

theorem countP_block_main {M : FloatOracle} {m : ℚ} {e1 e2 : Entity}
    {mid post : List Entity} (hv2 : is_vector_entity e2 = true)
    (hmid : ∀ b ∈ mid, b.handle ≠ e2.handle)
    (hpost : ∀ b ∈ post, b.handle ≠ e2.handle) :
    (((mid ++ e2 :: post).flatMap fun b =>
        if is_vector_entity b then distance_pair_records M m e1 b else []).countP
      (fun r => decide (r = distance_report e1 e2))) =
      offending_point_pairs M m e1 e2 := by
  induction mid with
  | nil =>
    rw [List.nil_append, List.flatMap_cons, List.countP_append, if_pos hv2,
      countP_distance_pair_records_self, countP_block_zero2 hpost, Nat.add_zero]
  | cons b t ih =>
    rw [List.cons_append, List.flatMap_cons, List.countP_append]
    have hb0 :
        ((if is_vector_entity b then distance_pair_records M m e1 b else []).countP
          (fun r => decide (r = distance_report e1 e2))) = 0 := by
      by_cases hvb : is_vector_entity b
      · rw [if_pos hvb]
        exact countP_distance_pair_records_ne fun hc =>
          hmid b (List.mem_cons_self b t) hc.2
      · rw [if_neg hvb]
        rfl
    rw [hb0, Nat.zero_add]
    exact ih fun c hc => hmid c (List.mem_cons_of_mem _ hc)

/-- C10: the distance check appends one separate id-25 record per
offending pair of sampled points, not one per pair of entities: for a
modelspace list holding two distinct vector entities (handles pairwise
distinct), the number of records equal to the id-25 record listing the two
handles in encounter order is exactly the number of sampled-point pairs
satisfying the firing condition. -/
theorem c10_record_per_point_pair (M : FloatOracle) (m : ℚ)
    (pre mid post : List Entity) (e1 e2 : Entity)
    (hnd : ((pre ++ e1 :: mid ++ e2 :: post).map Entity.handle).Nodup)
    (hv1 : is_vector_entity e1 = true) (hv2 : is_vector_entity e2 = true) :
    (check_vector_distances M m (pre ++ e1 :: mid ++ e2 :: post)).countP
        (fun r => decide (r = distance_report e1 e2)) =
      offending_point_pairs M m e1 e2 := by
  induction pre with
  | nil =>
    rw [List.nil_append] at hnd ⊢
    simp only [List.cons_append] at hnd ⊢
    simp only [List.map_cons, List.nodup_cons] at hnd
    obtain ⟨h1notin, htail⟩ := hnd
    have h2notin : e2.handle ∉ mid.map Entity.handle ++ post.map Entity.handle := by
      rw [List.map_append, List.map_cons, List.nodup_middle, List.nodup_cons] at htail
      exact htail.1
    have hmid : ∀ b ∈ mid, b.handle ≠ e2.handle := fun b hb he =>
      h2notin (List.mem_append.mpr (Or.inl (he ▸ List.mem_map_of_mem _ hb)))
    have hpost : ∀ b ∈ post, b.handle ≠ e2.handle := fun b hb he =>
      h2notin (List.mem_append.mpr (Or.inr (he ▸ List.mem_map_of_mem _ hb)))
    simp only [check_vector_distances]
    rw [List.countP_append, if_pos hv1, countP_block_main hv2 hmid hpost,
      countP_cvd_zero h1notin, Nat.add_zero]
  | cons p pres ih =>
    simp only [List.cons_append] at hnd ⊢
    simp only [List.map_cons, List.nodup_cons] at hnd
    obtain ⟨hp_notin, htail⟩ := hnd
    have hp_ne : p.handle ≠ e1.handle := by
      intro he
      apply hp_notin
      rw [he]
      have he1 : e1 ∈ pres ++ e1 :: mid ++ e2 :: post :=
        List.mem_append_left _
          (List.mem_append_right pres (List.mem_cons_self e1 mid))
      exact List.mem_map_of_mem Entity.handle he1
    simp only [check_vector_distances]
    rw [List.countP_append]
    have hfront :
        ((if is_vector_entity p then
            (pres ++ e1 :: mid ++ e2 :: post).flatMap fun b =>
              if is_vector_entity b then distance_pair_records M m p b else []
          else []).countP (fun r => decide (r = distance_report e1 e2))) = 0 := by
      by_cases hv : is_vector_entity p
      · rw [if_pos hv]
        exact countP_block_zero hp_ne
      · rw [if_neg hv]
        rfl
    rw [hfront, Nat.zero_add]
    exact ih htail

/-- Witness for C10 at the two close parallel lines (two offending
sampled-point pairs, hence exactly two id-25 records). -/
theorem c10_record_per_point_pair_witness :
    (([] ++ ent_close_a :: [] ++ ent_close_b :: []).map Entity.handle).Nodup ∧
    (check_vector_distances idOracle 1
        ([] ++ ent_close_a :: [] ++ ent_close_b :: [])).countP
        (fun r => decide (r = distance_report ent_close_a ent_close_b)) =
      offending_point_pairs idOracle 1 ent_close_a ent_close_b :=
  ⟨by decide,
   c10_record_per_point_pair idOracle 1 [] [] [] ent_close_a ent_close_b
     (by decide) rfl rfl⟩
